import Mathlib

/-!
# VpnCloud configuration front-end: a shallow embedding

This file embeds the configuration front-end of the VpnCloud daemon
(`src/config.rs`, `src/device.rs`, `src/main.rs`) as executable Lean
definitions and proves properties of the option parsing, the config
merging, and the startup/shutdown control flow.

Machine integers are modelled as `Nat` with explicit `% 2^w` where
overflow matters.  Fallible code returns `Option` or a dedicated result
inductive; `try_fail!` (which terminates the process on error) is
modelled by propagating `none` / a `fatal` outcome.
-/

/-! ## Decimal and numeric string parsing

Models of Rust's `u8::from_str` / `u16::from_str` (external library
functions used by `parse_listen` and `parse_ip_netmask`): an optional
leading plus sign, then one or more ASCII digits, and the value must
fit the integer width. -/

/-- The value of an ASCII decimal digit, `none` for any other character. -/
def digitVal (c : Char) : Option Nat :=
  if '0' ≤ c ∧ c ≤ '9' then some (c.toNat - '0'.toNat) else none

/-- Accumulate decimal digits left to right; fails on any non-digit. -/
def parseDigitsAux (acc : Nat) : List Char → Option Nat
  | [] => some acc
  | c :: cs =>
    match digitVal c with
    | some d => parseDigitsAux (acc * 10 + d) cs
    | none => none

/-- Parse a non-empty run of decimal digits. -/
def parseDigits : List Char → Option Nat
  | [] => none
  | c :: cs =>
    match digitVal c with
    | some d => parseDigitsAux d cs
    | none => none

/-- Drop one optional leading `'+'` sign. -/
def stripPlus : List Char → List Char
  | '+' :: rest => rest
  | cs => cs

/-- Model of Rust `FromStr` for unsigned integers with maximum value
`bound` (255 for `u8`, 65535 for `u16`): optional leading `'+'`, then
decimal digits; values above `bound` are an overflow error. -/
def rustParseUInt (bound : Nat) (cs : List Char) : Option Nat :=
  match parseDigits (stripPlus cs) with
  | some n => if n ≤ bound then some n else none
  | none => none

/-! ## Device type (`src/device.rs`)

The tun/tap device `Type` enum.  It is called `Type` in the source;
`Type` is reserved in Lean, so it is named `DeviceType` here. -/

/-- The type of a tun/tap device (`Type` in `src/device.rs`). -/
inductive DeviceType where
  | Tun
  | Tap
  | Dummy
deriving DecidableEq, Repr

/-- `impl Display for Type` (`src/device.rs`). -/
def DeviceType.display : DeviceType → String
  | .Tun => "tun"
  | .Tap => "tap"
  | .Dummy => "dummy"

/-- ASCII lowercasing of one character.  Models Rust's
`str::to_lowercase` restricted to ASCII, which is all the comparison
strings `"tun"`, `"tap"`, `"dummy"` contain. -/
def asciiLowerChar (c : Char) : Char :=
  if 'A' ≤ c ∧ c ≤ 'Z' then Char.ofNat (c.toNat + 32) else c

/-- ASCII lowercasing of a string (model of `text.to_lowercase()`). -/
def asciiLower (s : String) : String :=
  String.mk (s.data.map asciiLowerChar)

/-- `impl FromStr for Type` (`src/device.rs`): lowercase the input and
match against the three device type names. -/
def DeviceType.from_str (text : String) : Except String DeviceType :=
  let low := asciiLower text
  if low = "tun" then .ok .Tun
  else if low = "tap" then .ok .Tap
  else if low = "dummy" then .ok .Dummy
  else .error "Unknown device type"

/-! ## IP addresses and socket addresses

Models of `std::net::Ipv4Addr`, `Ipv6Addr`, `SocketAddr` and their
`FromStr` parsers (external library code used by `parse_listen` and
`parse_ip_netmask`).  An IPv4 address is four octets; an IPv6 address
is eight 16-bit hextets. -/

/-- An IP address: four octets (v4) or eight hextets (v6). -/
inductive IpAddr where
  | v4 (a b c d : Nat)
  | v6 (segs : List Nat)
deriving DecidableEq, Repr

/-- `Ipv6Addr::UNSPECIFIED`, i.e. `[::]`. -/
def Ipv6Unspecified : IpAddr := .v6 [0, 0, 0, 0, 0, 0, 0, 0]

/-- An IP socket address (model of `std::net::SocketAddr`). -/
structure SockAddr where
  ip : IpAddr
  port : Nat
deriving DecidableEq, Repr

/-- Split a character list at every occurrence of `sep`. -/
def splitOnChar (sep : Char) : List Char → List (List Char)
  | [] => [[]]
  | c :: cs =>
    if c = sep then [] :: splitOnChar sep cs
    else
      match splitOnChar sep cs with
      | [] => [[c]]
      | g :: gs => (c :: g) :: gs

/-- One dotted-decimal IPv4 octet: 1–3 digits, value at most 255, and no
leading zero (Rust's `Ipv4Addr` parser rejects `"01"`). -/
def parseOctet (cs : List Char) : Option Nat :=
  match cs with
  | [] => none
  | ['0'] => some 0
  | '0' :: _ :: _ => none
  | _ =>
    match parseDigits cs with
    | some n => if n ≤ 255 then some n else none
    | none => none

/-- Model of `Ipv4Addr::from_str`: exactly four octets separated by dots. -/
def parseIpv4 (cs : List Char) : Option IpAddr :=
  match splitOnChar '.' cs with
  | [a, b, c, d] =>
    match parseOctet a, parseOctet b, parseOctet c, parseOctet d with
    | some x, some y, some z, some w => some (.v4 x y z w)
    | _, _, _, _ => none
  | _ => none

/-- The value of an ASCII hexadecimal digit. -/
def hexVal (c : Char) : Option Nat :=
  if '0' ≤ c ∧ c ≤ '9' then some (c.toNat - '0'.toNat)
  else if 'a' ≤ c ∧ c ≤ 'f' then some (c.toNat - 'a'.toNat + 10)
  else if 'A' ≤ c ∧ c ≤ 'F' then some (c.toNat - 'A'.toNat + 10)
  else none

/-- One IPv6 hextet: 1–4 hexadecimal digits. -/
def parseHextet (cs : List Char) : Option Nat :=
  if cs = [] ∨ 4 < cs.length then none
  else cs.foldl (fun acc c => acc.bind fun a => (hexVal c).map fun d => a * 16 + d) (some 0)

/-- Find the first occurrence of a double colon, returning the parts
before and after it. -/
def splitDoubleColon : List Char → Option (List Char × List Char)
  | [] => none
  | [_] => none
  | ':' :: ':' :: rest => some ([], rest)
  | c :: rest =>
    match splitDoubleColon rest with
    | some (l, r) => some (c :: l, r)
    | none => none

/-- Parse a colon-separated list of hextets (no `::` inside). -/
def parseHextets (cs : List Char) : Option (List Nat) :=
  (splitOnChar ':' cs).mapM parseHextet

/-- Model of `Ipv6Addr::from_str`: eight hextets, or two shorter runs
joined by one `::` abbreviating the zero hextets in between. -/
def parseIpv6 (cs : List Char) : Option IpAddr :=
  match splitDoubleColon cs with
  | none =>
    match parseHextets cs with
    | some gs => if gs.length = 8 then some (.v6 gs) else none
    | none => none
  | some (l, r) =>
    let lg := if l = [] then some [] else parseHextets l
    let rg := if r = [] then some [] else parseHextets r
    match lg, rg with
    | some gl, some gr =>
      if gl.length + gr.length ≤ 7 then
        some (.v6 (gl ++ List.replicate (8 - gl.length - gr.length) 0 ++ gr))
      else none
    | _, _ => none

/-- Model of `SocketAddrV4::from_str`: `a.b.c.d:port`. -/
def parseSockV4 (cs : List Char) : Option SockAddr :=
  match splitOnChar ':' cs with
  | [host, port] =>
    match parseIpv4 host, parseDigits port with
    | some ip, some p => if p ≤ 65535 then some ⟨ip, p⟩ else none
    | _, _ => none
  | _ => none

/-- Split a character list at the first occurrence of `sep`: the part
before it and, when `sep` occurs, the part after it. -/
def splitAtFirst (sep : Char) : List Char → List Char × Option (List Char)
  | [] => ([], none)
  | c :: cs =>
    if c = sep then ([], some cs)
    else
      match splitAtFirst sep cs with
      | (pre, post) => (c :: pre, post)

/-- Model of `SocketAddrV6::from_str`: `[v6]:port`. -/
def parseSockV6 (cs : List Char) : Option SockAddr :=
  match cs with
  | '[' :: rest =>
    match splitAtFirst ']' rest with
    | (inner, some (':' :: portCs)) =>
      match parseIpv6 inner, parseDigits portCs with
      | some ip, some p => if p ≤ 65535 then some ⟨ip, p⟩ else none
      | _, _ => none
    | _ => none
  | _ => none

/-- Model of `SocketAddr::from_str`: try the v4 form, then the v6 form. -/
def parseSockAddr (cs : List Char) : Option SockAddr :=
  match parseSockV4 cs with
  | some a => some a
  | none => parseSockV6 cs


/-! ## `parse_listen` (`src/config.rs`)

`try_fail!` terminates the process on a parse error; that outcome is
modelled as `none`. -/

/-- Core of `parse_listen` over the character list of the argument:
`*:PORT` and a bare `PORT` bind the IPv6 unspecified address, any other
string containing a colon is parsed as a full socket address. -/
def parseListenCore : List Char → Option SockAddr
  | '*' :: ':' :: rest =>
    (rustParseUInt 65535 rest).map fun p => ⟨Ipv6Unspecified, p⟩
  | cs =>
    if ':' ∈ cs then parseSockAddr cs
    else (rustParseUInt 65535 cs).map fun p => ⟨Ipv6Unspecified, p⟩

/-- `parse_listen` (`src/config.rs`, lines 19–29). -/
def parse_listen (addr : String) : Option SockAddr :=
  parseListenCore addr.data

/-! ## The configuration data model (`src/config.rs`)

`util::Duration` (whose defining file is not among the sources) is an
unsigned 32-bit count of seconds; it is modelled as `Nat`, with the
wrapping of its subtraction made explicit where it occurs. -/

/-- Modelled from the spec: the operating mode enum `types::Mode`
(`src/types.rs` is not among the sources); §6 lists
`mode ∈ {normal, router, switch, hub}`. -/
inductive Mode where
  | Normal
  | Hub
  | Switch
  | Router
deriving DecidableEq, Repr

/-- Modelled from the spec: `crypto::Config` (`src/crypto.rs` is not
among the sources).  §6 lists the options
`crypto.{password,private_key,public_key,trusted_keys,algorithms}`,
which are exactly the fields `merge_file` / `merge_args` touch. -/
structure CryptoConfig where
  password : Option String := none
  public_key : Option String := none
  private_key : Option String := none
  trusted_keys : List String := []
  algorithms : List String := []
deriving DecidableEq, Repr

/-- `CryptoConfig::default()`: no keys, no password, empty lists. -/
def CryptoConfig.default : CryptoConfig := {}

/-- The runtime configuration (`struct Config`, `src/config.rs`).
The source field `statsd_prefix` is named `statsd_pfx` here. -/
structure Config where
  device_type : DeviceType
  device_name : String
  device_path : Option String
  fix_rp_filter : Bool
  ip : Option String
  ifup : Option String
  ifdown : Option String
  crypto : CryptoConfig
  listen : SockAddr
  peers : List String
  peer_timeout : Nat
  keepalive : Option Nat
  beacon_store : Option String
  beacon_load : Option String
  beacon_interval : Nat
  beacon_password : Option String
  mode : Mode
  switch_timeout : Nat
  claims : List String
  auto_claim : Bool
  port_forwarding : Bool
  daemonize : Bool
  pid_file : Option String
  stats_file : Option String
  statsd_server : Option String
  statsd_pfx : Option String
  user : Option String
  group : Option String
deriving DecidableEq, Repr

/-- `DEFAULT_PEER_TIMEOUT` (`src/config.rs`). -/
def DEFAULT_PEER_TIMEOUT : Nat := 300

/-- The value of `"[::]:3210".parse::<SocketAddr>().unwrap()` used by
`Config::default()` (witnessed by the `parseSockAddr` example above). -/
def defaultListen : SockAddr := ⟨Ipv6Unspecified, 3210⟩

/-- `impl Default for Config` (`src/config.rs`, lines 66–99). -/
def Config.default : Config where
  device_type := .Tun
  device_name := "vpncloud%d"
  device_path := none
  fix_rp_filter := false
  ip := none
  ifup := none
  ifdown := none
  crypto := CryptoConfig.default
  listen := defaultListen
  peers := []
  peer_timeout := DEFAULT_PEER_TIMEOUT
  keepalive := none
  beacon_store := none
  beacon_load := none
  beacon_interval := 3600
  beacon_password := none
  mode := .Normal
  switch_timeout := 300
  claims := []
  auto_claim := true
  port_forwarding := true
  daemonize := false
  pid_file := none
  stats_file := none
  statsd_server := none
  statsd_pfx := none
  user := none
  group := none

/-- `struct ConfigFileDevice` (`src/config.rs`). -/
structure ConfigFileDevice where
  type_ : Option DeviceType := none
  name : Option String := none
  path : Option String := none
  fix_rp_filter : Option Bool := none
deriving DecidableEq, Repr

/-- `struct ConfigFileBeacon` (`src/config.rs`). -/
structure ConfigFileBeacon where
  store : Option String := none
  load : Option String := none
  interval : Option Nat := none
  password : Option String := none
deriving DecidableEq, Repr

/-- `struct ConfigFileStatsd` (`src/config.rs`).  The source field
`prefix` is named `pfx` here. -/
structure ConfigFileStatsd where
  server : Option String := none
  pfx : Option String := none
deriving DecidableEq, Repr

/-- `struct ConfigFile` (`src/config.rs`, lines 490–516). -/
structure ConfigFile where
  device : Option ConfigFileDevice := none
  ip : Option String := none
  ifup : Option String := none
  ifdown : Option String := none
  crypto : CryptoConfig := CryptoConfig.default
  listen : Option String := none
  peers : Option (List String) := none
  peer_timeout : Option Nat := none
  keepalive : Option Nat := none
  beacon : Option ConfigFileBeacon := none
  mode : Option Mode := none
  switch_timeout : Option Nat := none
  claims : Option (List String) := none
  auto_claim : Option Bool := none
  port_forwarding : Option Bool := none
  pid_file : Option String := none
  stats_file : Option String := none
  statsd : Option ConfigFileStatsd := none
  user : Option String := none
  group : Option String := none
deriving DecidableEq, Repr

/-- An empty config file: every option unset. -/
def ConfigFile.default : ConfigFile := {}

/-- `struct Args` (`src/config.rs`, lines 305–462): the command-line
flags.  `derive(Default)` gives `None` / `false` / empty vectors.  The
source field `statsd_prefix` is named `statsd_pfx` here. -/
structure Args where
  config : Option String := none
  type_ : Option DeviceType := none
  device_path : Option String := none
  fix_rp_filter : Bool := false
  mode : Option Mode := none
  password : Option String := none
  private_key : Option String := none
  public_key : Option String := none
  trusted_keys : List String := []
  algorithms : List String := []
  claims : List String := []
  no_auto_claim : Bool := false
  device : Option String := none
  listen : Option String := none
  peers : List String := []
  peer_timeout : Option Nat := none
  keepalive : Option Nat := none
  switch_timeout : Option Nat := none
  beacon_store : Option String := none
  beacon_load : Option String := none
  beacon_interval : Option Nat := none
  beacon_password : Option String := none
  verbose : Bool := false
  quiet : Bool := false
  ip : Option String := none
  ifup : Option String := none
  ifdown : Option String := none
  version : Bool := false
  genkey : Bool := false
  no_port_forwarding : Bool := false
  daemon : Bool := false
  pid_file : Option String := none
  stats_file : Option String := none
  statsd_server : Option String := none
  statsd_pfx : Option String := none
  user : Option String := none
  group : Option String := none
  log_file : Option String := none
  migrate_config : Bool := false
deriving DecidableEq, Repr

/-- `Args::default()`. -/
def Args.default : Args := {}

/-! ## Config merging (`src/config.rs`)

`merge_file` and `merge_args` are sequences of `if let Some(val) = x`
assignments to pairwise distinct fields plus `Vec::append` on the
list-valued fields; they translate to one functional record build per
merge.  `upd` / `updOpt` model one conditional assignment. -/

/-- Models `if let Some(val) = o { field = val }`. -/
def upd {α : Type} (old : α) : Option α → α
  | some v => v
  | none => old

/-- Models `if let Some(val) = o { field = Some(val) }`. -/
def updOpt {α : Type} (old : Option α) : Option α → Option α
  | some v => some v
  | none => old

/-- The merged `listen` field: an absent option keeps the old value, a
present one is parsed with `parse_listen`, whose failure terminates the
process (`none`). -/
def newListen (old : SockAddr) : Option String → Option SockAddr
  | none => some old
  | some s => parse_listen s

/-- `Config::merge_file` (`src/config.rs`, lines 103–201).  Fields are
listed in source order; `peers`, `claims` and `crypto.trusted_keys` are
appended to, `crypto.algorithms` is replaced when the file's list is
non-empty. -/
def Config.merge_file (c : Config) (f : ConfigFile) : Option Config :=
  (newListen c.listen f.listen).map fun l =>
    { device_type := upd c.device_type (f.device.bind ConfigFileDevice.type_)
      device_name := upd c.device_name (f.device.bind ConfigFileDevice.name)
      device_path := updOpt c.device_path (f.device.bind ConfigFileDevice.path)
      fix_rp_filter := upd c.fix_rp_filter (f.device.bind ConfigFileDevice.fix_rp_filter)
      ip := updOpt c.ip f.ip
      ifup := updOpt c.ifup f.ifup
      ifdown := updOpt c.ifdown f.ifdown
      listen := l
      peers := c.peers ++ f.peers.getD []
      peer_timeout := upd c.peer_timeout f.peer_timeout
      keepalive := updOpt c.keepalive f.keepalive
      beacon_store := updOpt c.beacon_store (f.beacon.bind ConfigFileBeacon.store)
      beacon_load := updOpt c.beacon_load (f.beacon.bind ConfigFileBeacon.load)
      beacon_interval := upd c.beacon_interval (f.beacon.bind ConfigFileBeacon.interval)
      beacon_password := updOpt c.beacon_password (f.beacon.bind ConfigFileBeacon.password)
      mode := upd c.mode f.mode
      switch_timeout := upd c.switch_timeout f.switch_timeout
      claims := c.claims ++ f.claims.getD []
      auto_claim := upd c.auto_claim f.auto_claim
      port_forwarding := upd c.port_forwarding f.port_forwarding
      daemonize := c.daemonize
      pid_file := updOpt c.pid_file f.pid_file
      stats_file := updOpt c.stats_file f.stats_file
      statsd_server := updOpt c.statsd_server (f.statsd.bind ConfigFileStatsd.server)
      statsd_pfx := updOpt c.statsd_pfx (f.statsd.bind ConfigFileStatsd.pfx)
      user := updOpt c.user f.user
      group := updOpt c.group f.group
      crypto :=
        { password := updOpt c.crypto.password f.crypto.password
          public_key := updOpt c.crypto.public_key f.crypto.public_key
          private_key := updOpt c.crypto.private_key f.crypto.private_key
          trusted_keys := c.crypto.trusted_keys ++ f.crypto.trusted_keys
          algorithms :=
            if f.crypto.algorithms = [] then c.crypto.algorithms
            else f.crypto.algorithms } }

/-- `Config::merge_args` (`src/config.rs`, lines 203–294).  Boolean
flags only ever set their field (`fix_rp_filter`, `daemon`) or clear it
(`no_auto_claim`, `no_port_forwarding`); list-valued flags are appended. -/
def Config.merge_args (c : Config) (a : Args) : Option Config :=
  (newListen c.listen a.listen).map fun l =>
    { device_type := upd c.device_type a.type_
      device_name := upd c.device_name a.device
      device_path := updOpt c.device_path a.device_path
      fix_rp_filter := if a.fix_rp_filter then true else c.fix_rp_filter
      ip := updOpt c.ip a.ip
      ifup := updOpt c.ifup a.ifup
      ifdown := updOpt c.ifdown a.ifdown
      listen := l
      peers := c.peers ++ a.peers
      peer_timeout := upd c.peer_timeout a.peer_timeout
      keepalive := updOpt c.keepalive a.keepalive
      beacon_store := updOpt c.beacon_store a.beacon_store
      beacon_load := updOpt c.beacon_load a.beacon_load
      beacon_interval := upd c.beacon_interval a.beacon_interval
      beacon_password := updOpt c.beacon_password a.beacon_password
      mode := upd c.mode a.mode
      switch_timeout := upd c.switch_timeout a.switch_timeout
      claims := c.claims ++ a.claims
      auto_claim := if a.no_auto_claim then false else c.auto_claim
      port_forwarding := if a.no_port_forwarding then false else c.port_forwarding
      daemonize := if a.daemon then true else c.daemonize
      pid_file := updOpt c.pid_file a.pid_file
      stats_file := updOpt c.stats_file a.stats_file
      statsd_server := updOpt c.statsd_server a.statsd_server
      statsd_pfx := updOpt c.statsd_pfx a.statsd_pfx
      user := updOpt c.user a.user
      group := updOpt c.group a.group
      crypto :=
        { password := updOpt c.crypto.password a.password
          public_key := updOpt c.crypto.public_key a.public_key
          private_key := updOpt c.crypto.private_key a.private_key
          trusted_keys := c.crypto.trusted_keys ++ a.trusted_keys
          algorithms :=
            if a.algorithms = [] then c.crypto.algorithms
            else a.algorithms } }

/-- Wrapping 32-bit subtraction, the release-build semantics of `a - b`
on `util::Duration` (an unsigned 32-bit integer; a debug build panics
on the same underflow). -/
def subU32 (a b : Nat) : Nat :=
  (a % 2 ^ 32 + 2 ^ 32 - b % 2 ^ 32) % 2 ^ 32

/-- `Config::get_keepalive` (`src/config.rs`, lines 296–301): the
configured keepalive, defaulting to `max(peer_timeout / 2 - 60, 1)`
where the subtraction is on the unsigned `Duration` type. -/
def Config.get_keepalive (c : Config) : Nat :=
  match c.keepalive with
  | some dur => dur
  | none => max (subU32 (c.peer_timeout / 2) 60) 1


/-! ## `parse_ip_netmask` and `setup_device` (`src/main.rs`) -/

/-- Outcome of `parse_ip_netmask`: a parsed address/netmask pair, an
`Err` with its one-line message, or a panic (an `unwrap` of `None`). -/
inductive IpNetmaskResult where
  | ok (ip netmask : IpAddr)
  | err (msg : String)
  | panicked
deriving DecidableEq, Repr

/-- Model of `u32::checked_shl`: `none` when the shift amount is the
bit width or more, otherwise the left shift truncated to 32 bits. -/
def checkedShlU32 (a n : Nat) : Option Nat :=
  if 32 ≤ n then none else some ((a <<< n) % 2 ^ 32)

/-- Model of `Ipv4Addr::from(u32)`: big-endian octets. -/
def ipv4FromU32 (m : Nat) : IpAddr :=
  .v4 (m / 2 ^ 24 % 256) (m / 2 ^ 16 % 256) (m / 2 ^ 8 % 256) (m % 256)

/-- The body of `parse_ip_netmask` after the split into address part
and prefix-length part: parse the prefix length as `u8` and reject
values above 32, parse the address part as IPv4, and build the netmask
as `u32::MAX.checked_shl(32 - prefix_len).unwrap()`. -/
def ipNetmaskFromParts (ipCs lenCs : List Char) : IpNetmaskResult :=
  match rustParseUInt 255 lenCs with
  | none => .err ("Invalid prefix length: " ++ String.mk lenCs)
  | some len =>
    if 32 < len then .err ("Invalid prefix length: " ++ Nat.repr len)
    else
      match parseIpv4 ipCs with
      | none => .err ("Invalid ip address: " ++ String.mk ipCs)
      | some ip =>
        match checkedShlU32 (2 ^ 32 - 1) (32 - len) with
        | none => .panicked
        | some m => .ok ip (ipv4FromU32 m)

/-- `parse_ip_netmask` (`src/main.rs`, lines 121–133): split at the
first `/`; the prefix-length part defaults to `"24"` when there is no
`/`. -/
def parse_ip_netmask (addr : String) : IpNetmaskResult :=
  match splitAtFirst '/' addr.data with
  | (ipCs, some lenCs) => ipNetmaskFromParts ipCs lenCs
  | (ipCs, none) => ipNetmaskFromParts ipCs "24".data

/-- Outcome of the `config.ip` step of `setup_device`. -/
inductive SetupIpStep where
  | proceed (cfg : Option (IpAddr × IpAddr))
  | fatal
  | panicked
deriving DecidableEq, Repr

/-- The `config.ip` handling inside `setup_device` (`src/main.rs`,
lines 146–150): an absent `ip` skips device address configuration;
`try_fail!` turns a parse `Err` into process exit (`fatal`). -/
def setup_device_ip : Option String → SetupIpStep
  | none => .proceed none
  | some s =>
    match parse_ip_netmask s with
    | .ok ip mask => .proceed (some (ip, mask))
    | .err _ => .fatal
    | .panicked => .panicked

/-! ## `main` and `run` (`src/main.rs`) -/

/-- What an execution of `main` does after flag parsing. -/
inductive MainOutcome where
  | printVersion
  | genkeyExit
  | migrateExit
  | run (c : Config)
deriving DecidableEq, Repr

/-- The decision structure of `main` (`src/main.rs`, lines 223–291):
`--version`, `--genkey` and `--migrate-config` return before the
runtime `Config` is built; otherwise the defaults are merged with the
config file (when `--config` is given) and then with the flags, and
`run` is entered.  `parsedFile` stands for the `ConfigFile` read from
`args.config` (file I/O); an overall `none` models process termination
(a failed `unwrap`, unreadable config file, or `try_fail!`). -/
def main_outcome (args : Args) (parsedFile : Option ConfigFile) : Option MainOutcome :=
  if args.version then some .printVersion
  else if args.genkey then some .genkeyExit
  else if args.migrate_config then
    match args.config with
    | some _ => some .migrateExit
    | none => none
  else
    let base : Option Config :=
      match args.config with
      | some _ =>
        match parsedFile with
        | some f => Config.merge_file Config.default f
        | none => none
      | none => some Config.default
    (base.bind fun c => Config.merge_args c args).map .run

/-- One execution of an external script command. -/
structure ScriptInvocation where
  program : String
  progArgs : List String
  env_IFNAME : String
deriving DecidableEq, Repr

/-- `run_script` (`src/main.rs`, lines 107–119): runs `sh -c script`
with the environment variable `IFNAME` set to the interface name. -/
def run_script (script : String) (ifname : String) : ScriptInvocation :=
  { program := "sh", progArgs := ["-c", script], env_IFNAME := ifname }

/-- The externally visible events of `run`. -/
inductive RunEvent where
  | deviceSetup
  | ifupScript (inv : ScriptInvocation)
  | eventLoop
  | ifdownScript (inv : ScriptInvocation)
deriving DecidableEq, Repr

/-- `true` exactly on the event-loop event. -/
def RunEvent.isLoop : RunEvent → Bool
  | .eventLoop => true
  | _ => false

/-- `true` exactly on an `ifdown` script invocation. -/
def RunEvent.isIfdown : RunEvent → Bool
  | .ifdownScript _ => true
  | _ => false

/-- The script-relevant event trace of `run` (`src/main.rs`, lines
167–221) on an execution that reaches and leaves the event loop:
`setup_device` opens the device and runs the `ifup` script if
configured (lines 151–153), `cloud.run()` is the event loop
(line 217), and afterwards the `ifdown` script runs if configured
(lines 218–220). -/
def run_trace (config : Config) (ifname : String) : List RunEvent :=
  [RunEvent.deviceSetup]
    ++ (match config.ifup with
        | some s => [RunEvent.ifupScript (run_script s ifname)]
        | none => [])
    ++ [RunEvent.eventLoop]
    ++ (match config.ifdown with
        | some s => [RunEvent.ifdownScript (run_script s ifname)]
        | none => [])

/-- The events of a trace that come strictly after the event loop. -/
def postLoopEvents (tr : List RunEvent) : List RunEvent :=
  (tr.dropWhile fun e => !(RunEvent.isLoop e)).drop 1


/-! ## Concrete inputs used by the witnesses and counterexamples -/

/-- A config file specifying one peer. -/
def fileWithPeer : ConfigFile := { ConfigFile.default with peers := some ["file-peer:3210"] }

/-- Flags specifying a device type and one peer. -/
def argsWithPeer : Args := { Args.default with type_ := some .Tap, peers := ["flag-peer:3210"] }

/-- `fileWithPeer` merged onto the defaults. -/
def cfgAfterFile : Config := { Config.default with peers := ["file-peer:3210"] }

/-- `argsWithPeer` merged onto `cfgAfterFile`. -/
def cfgAfterArgs : Config :=
  { Config.default with device_type := .Tap, peers := ["file-peer:3210", "flag-peer:3210"] }

/-- A config file setting only scalar options. -/
def fileScalars : ConfigFile :=
  { ConfigFile.default with mode := some Mode.Switch, ip := some "10.1.2.3/24" }

/-- `fileScalars` merged onto the defaults. -/
def cfgScalars : Config := { Config.default with mode := .Switch, ip := some "10.1.2.3/24" }

/-- A starting config with a distinctive `ip`. -/
def frameCfg : Config := { Config.default with ip := some "10.0.0.1" }

/-- A config file that sets only the mode. -/
def frameFile : ConfigFile := { ConfigFile.default with mode := some Mode.Switch }

/-- `frameFile` merged onto `frameCfg`. -/
def frameMerged : Config := { Config.default with ip := some "10.0.0.1", mode := Mode.Switch }

/-- The config file of the source's `config_merge` test
(`src/config.rs`, lines 629–663). -/
def testConfigFile : ConfigFile :=
  { device := some
      { type_ := some .Tun, name := some "vpncloud%d", path := none, fix_rp_filter := none }
    ip := none
    ifup := some "ifconfig $IFNAME 10.0.1.1/16 mtu 1400 up"
    ifdown := some "true"
    crypto := CryptoConfig.default
    listen := none
    peers := some ["remote.machine.foo:3210", "remote.machine.bar:3210"]
    peer_timeout := some 600
    keepalive := some 840
    beacon := some
      { store := some "/run/vpncloud.beacon.out", load := some "/run/vpncloud.beacon.in"
        interval := some 7200, password := some "test123" }
    mode := some .Normal
    switch_timeout := some 300
    claims := some ["10.0.1.0/24"]
    auto_claim := some true
    port_forwarding := some true
    pid_file := some "/run/vpncloud.run"
    stats_file := some "/var/log/vpncloud.stats"
    statsd := some { server := some "example.com:1234", pfx := some "prefix" }
    user := some "nobody"
    group := some "nogroup" }

/-- The config the test asserts after `merge_file`
(`src/config.rs`, lines 664–690). -/
def testMergedFileConfig : Config :=
  { Config.default with
      ifup := some "ifconfig $IFNAME 10.0.1.1/16 mtu 1400 up"
      ifdown := some "true"
      peers := ["remote.machine.foo:3210", "remote.machine.bar:3210"]
      peer_timeout := 600
      keepalive := some 840
      switch_timeout := 300
      beacon_store := some "/run/vpncloud.beacon.out"
      beacon_load := some "/run/vpncloud.beacon.in"
      beacon_interval := 7200
      beacon_password := some "test123"
      mode := .Normal
      port_forwarding := true
      claims := ["10.0.1.0/24"]
      user := some "nobody"
      group := some "nogroup"
      pid_file := some "/run/vpncloud.run"
      stats_file := some "/var/log/vpncloud.stats"
      statsd_server := some "example.com:1234"
      statsd_pfx := some "prefix" }

/-- The flags of the source's `config_merge` test
(`src/config.rs`, lines 691–718). -/
def testArgs : Args :=
  { Args.default with
      type_ := some .Tap
      device := some "vpncloud0"
      device_path := some "/dev/null"
      ifup := some "ifconfig $IFNAME 10.0.1.2/16 mtu 1400 up"
      ifdown := some "ifconfig $IFNAME down"
      password := some "anothersecret"
      listen := some "3211"
      peer_timeout := some 1801
      keepalive := some 850
      switch_timeout := some 301
      beacon_store := some "/run/vpncloud.beacon.out2"
      beacon_load := some "/run/vpncloud.beacon.in2"
      beacon_interval := some 3600
      beacon_password := some "test1234"
      mode := some .Switch
      claims := []
      peers := ["another:3210"]
      no_port_forwarding := true
      daemon := true
      pid_file := some "/run/vpncloud-mynet.run"
      stats_file := some "/var/log/vpncloud-mynet.stats"
      statsd_server := some "example.com:2345"
      statsd_pfx := some "prefix2"
      user := some "root"
      group := some "root" }

/-- The config the test asserts after the subsequent `merge_args`
(`src/config.rs`, lines 719–752). -/
def testMergedArgsConfig : Config :=
  { device_type := .Tap
    device_name := "vpncloud0"
    device_path := some "/dev/null"
    fix_rp_filter := false
    ip := none
    ifup := some "ifconfig $IFNAME 10.0.1.2/16 mtu 1400 up"
    ifdown := some "ifconfig $IFNAME down"
    crypto := { CryptoConfig.default with password := some "anothersecret" }
    listen := ⟨Ipv6Unspecified, 3211⟩
    peers := ["remote.machine.foo:3210", "remote.machine.bar:3210", "another:3210"]
    peer_timeout := 1801
    keepalive := some 850
    beacon_store := some "/run/vpncloud.beacon.out2"
    beacon_load := some "/run/vpncloud.beacon.in2"
    beacon_interval := 3600
    beacon_password := some "test1234"
    mode := .Switch
    switch_timeout := 301
    claims := ["10.0.1.0/24"]
    auto_claim := true
    port_forwarding := false
    daemonize := true
    pid_file := some "/run/vpncloud-mynet.run"
    stats_file := some "/var/log/vpncloud-mynet.stats"
    statsd_server := some "example.com:2345"
    statsd_pfx := some "prefix2"
    user := some "root"
    group := some "root" }

/-! # Theorems -/

/-! ## Helper lemmas -/

@[simp] theorem upd_some {α : Type} (old : α) (v : α) : upd old (some v) = v := rfl

@[simp] theorem upd_none {α : Type} (old : α) : upd old none = old := rfl

@[simp] theorem updOpt_some {α : Type} (old : Option α) (v : α) : updOpt old (some v) = some v := rfl

@[simp] theorem updOpt_none {α : Type} (old : Option α) : updOpt old none = old := rfl

theorem upd_idem {α : Type} (old : α) (o : Option α) : upd (upd old o) o = upd old o := by
  cases o <;> rfl

theorem updOpt_idem {α : Type} (old : Option α) (o : Option α) :
    updOpt (updOpt old o) o = updOpt old o := by
  cases o <;> rfl

/-! ## C10: device type parse/display round-trip -/

/-- C10: `Type::from_str` inverts `Display`: the rendering of each of
`Tun`, `Tap`, `Dummy` parses back to it; parsing is case-insensitive
(any string whose ASCII lowercasing is a device type name is accepted);
every other string is rejected with `Unknown device type`. -/
theorem deviceType_roundtrip :
    (∀ t : DeviceType, DeviceType.from_str (DeviceType.display t) = .ok t) ∧
    (∀ s t, asciiLower s = DeviceType.display t → DeviceType.from_str s = .ok t) ∧
    (∀ s, asciiLower s ≠ "tun" → asciiLower s ≠ "tap" → asciiLower s ≠ "dummy" →
      DeviceType.from_str s = .error "Unknown device type") := by
  refine ⟨?_, ?_, ?_⟩
  · intro t; cases t <;> rfl
  · intro s t h
    cases t <;> simp [DeviceType.from_str, DeviceType.display, h]
  · intro s h1 h2 h3
    simp [DeviceType.from_str, h1, h2, h3]

/-- Witness for the hypotheses of `deviceType_roundtrip`: an uppercase
rendering parses, an unknown name is rejected. -/
theorem deviceType_roundtrip_witness :
    DeviceType.from_str "TAP" = .ok .Tap ∧
    DeviceType.from_str "bridge" = .error "Unknown device type" :=
  ⟨deviceType_roundtrip.2.1 "TAP" .Tap rfl,
   deviceType_roundtrip.2.2 "bridge" (by decide) (by decide) (by decide)⟩

/-! ## C1: the `get_keepalive` default and small `peer_timeout` -/

/-- C1: with `keepalive` unset, `get_keepalive` is *not* the clamped
`max(peer_timeout / 2 - 60, 1)` for `peer_timeout < 120`: the unsigned
subtraction `peer_timeout / 2 - 60` wraps (release build; a debug build
panics), so `peer_timeout = 100` gives `2^32 - 10`, not `1`; only from
`peer_timeout = 120` on does the claimed clamp describe the result. -/
theorem get_keepalive_wraps_below_120 :
    Config.get_keepalive { Config.default with peer_timeout := 100 } = 4294967286 ∧
    (4294967286 : Nat) ≠ 1 ∧
    Config.get_keepalive { Config.default with peer_timeout := 119 } = 4294967295 ∧
    Config.get_keepalive { Config.default with peer_timeout := 120 } = 1 ∧
    Config.get_keepalive { Config.default with peer_timeout := 122 } = 1 ∧
    Config.get_keepalive { Config.default with peer_timeout := 300 } = 90 := by
  refine ⟨by decide, by decide, by decide, by decide, by decide, by decide⟩

/-! ## C6: `--version`, `--genkey`, `--migrate-config` short-circuit -/

/-- C6: whenever one of the flags `--version`, `--genkey` or
`--migrate-config` is set, `main` returns before building the runtime
config and `run` is never reached, whatever the config file holds. -/
theorem main_shortcircuits (a : Args) (pf : Option ConfigFile) (c : Config)
    (h : a.version = true ∨ a.genkey = true ∨ a.migrate_config = true) :
    main_outcome a pf ≠ some (MainOutcome.run c) := by
  unfold main_outcome
  rcases h with h | h | h
  · simp [h]
  · cases hv : a.version <;> simp [h, hv]
  · cases hv : a.version <;> cases hg : a.genkey <;>
      cases hc : a.config <;> simp [h, hv, hg, hc]

/-- Witness for `main_shortcircuits` at `--version`. -/
theorem main_shortcircuits_witness :
    main_outcome { Args.default with version := true } none
      ≠ some (MainOutcome.run Config.default) :=
  main_shortcircuits { Args.default with version := true } none Config.default (Or.inl rfl)

/-! ## C8: the `ifdown` script runs exactly once, after the loop -/

/-- C8: in every completed `run`, the trace contains exactly one
`ifdown` invocation when an `ifdown` script is configured and none
otherwise; no `ifdown` invocation precedes the event loop; the events
after the loop are exactly the configured `ifdown` invocation (or
nothing); the invocation carries `IFNAME` = interface name; the event
loop occurs exactly once. -/
theorem ifdown_after_loop (cfg : Config) (ifn : String) :
    ((run_trace cfg ifn).filter RunEvent.isIfdown).length
        = (match cfg.ifdown with | some _ => 1 | none => 0) ∧
    ((run_trace cfg ifn).takeWhile (fun e => !(RunEvent.isLoop e))).filter RunEvent.isIfdown
        = [] ∧
    postLoopEvents (run_trace cfg ifn)
        = (match cfg.ifdown with
           | some s => [RunEvent.ifdownScript (run_script s ifn)]
           | none => []) ∧
    (∀ s, cfg.ifdown = some s → (run_script s ifn).env_IFNAME = ifn) ∧
    (run_trace cfg ifn).count RunEvent.eventLoop = 1 := by
  rcases hup : cfg.ifup with _ | u <;> rcases hdn : cfg.ifdown with _ | d <;>
    simp [run_trace, hup, hdn, postLoopEvents, RunEvent.isLoop, RunEvent.isIfdown,
      run_script, List.count_cons, List.dropWhile, List.takeWhile, List.filter]

/-- Witness for `ifdown_after_loop`: with `ifdown` configured, the one
invocation carries the interface name in `IFNAME`. -/
theorem ifdown_after_loop_witness :
    (run_script "true" "vpncloud0").env_IFNAME = "vpncloud0" :=
  (ifdown_after_loop { Config.default with ifdown := some "true" } "vpncloud0").2.2.2.1
    "true" rfl

/-! ## C5: the three accepted `listen` forms -/

theorem parseDigitsAux_digits {n : Nat} :
    ∀ {cs : List Char} {acc : Nat}, parseDigitsAux acc cs = some n →
      ∀ c ∈ cs, digitVal c ≠ none := by
  intro cs
  induction cs with
  | nil => intro acc _ c hc; cases hc
  | cons c cs ih =>
    intro acc h x hx
    simp only [parseDigitsAux] at h
    cases hd : digitVal c with
    | none => rw [hd] at h; cases h
    | some d =>
      rw [hd] at h
      rcases List.mem_cons.mp hx with rfl | hx2
      · simp [hd]
      · exact ih h x hx2

theorem parseDigits_digits {n : Nat} {cs : List Char} (h : parseDigits cs = some n) :
    ∀ c ∈ cs, digitVal c ≠ none := by
  cases cs with
  | nil => intro c hc; cases hc
  | cons c cs =>
    simp only [parseDigits] at h
    cases hd : digitVal c with
    | none => rw [hd] at h; cases h
    | some d =>
      rw [hd] at h
      intro x hx
      rcases List.mem_cons.mp hx with rfl | hx2
      · simp [hd]
      · exact parseDigitsAux_digits h x hx2

theorem stripPlus_cases (cs : List Char) :
    stripPlus cs = cs ∨ ∃ rest, cs = '+' :: rest ∧ stripPlus cs = rest := by
  cases cs with
  | nil => left; rfl
  | cons c rest =>
    by_cases hc : c = '+'
    · subst hc; right; exact ⟨rest, rfl, rfl⟩
    · left
      unfold stripPlus
      split
      · rename_i heq
        rw [List.cons.injEq] at heq
        exact absurd heq.1 hc
      · rfl

theorem rustParseUInt_chars {b n : Nat} {cs : List Char} (h : rustParseUInt b cs = some n) :
    ∀ c ∈ cs, c = '+' ∨ digitVal c ≠ none := by
  unfold rustParseUInt at h
  cases hp : parseDigits (stripPlus cs) with
  | none => rw [hp] at h; cases h
  | some m =>
    have hdig := parseDigits_digits hp
    intro c hc
    rcases stripPlus_cases cs with heq | ⟨rest, hcs, hsp⟩
    · right; exact hdig c (heq.symm ▸ hc)
    · subst hcs
      rcases List.mem_cons.mp hc with rfl | hc2
      · left; rfl
      · right; exact hdig c (hsp.symm ▸ hc2)

theorem rustParseUInt_no_colon {b n : Nat} {cs : List Char}
    (h : rustParseUInt b cs = some n) : ':' ∉ cs := by
  intro hc
  rcases rustParseUInt_chars h ':' hc with h1 | h1
  · exact absurd h1 (by decide)
  · exact h1 (by decide)

theorem rustParseUInt_not_star {b n : Nat} {cs : List Char}
    (h : rustParseUInt b cs = some n) : ∀ rest, cs ≠ '*' :: ':' :: rest := by
  intro rest hcs
  subst hcs
  rcases rustParseUInt_chars h '*' (by simp) with h1 | h1
  · exact absurd h1 (by decide)
  · exact h1 (by decide)

theorem parseListenCore_not_star {cs : List Char} (hne : ∀ rest, cs ≠ '*' :: ':' :: rest) :
    parseListenCore cs =
      if ':' ∈ cs then parseSockAddr cs
      else (rustParseUInt 65535 cs).map fun p => ⟨Ipv6Unspecified, p⟩ := by
  unfold parseListenCore
  split
  · rename_i rest
    exact absurd rfl (hne rest)
  · rfl

/-- C5: `parse_listen` accepts exactly the three listen forms: `*:P`
and a bare `P` (for any string parsing as a 16-bit port `P`) give the
IPv6 unspecified address with port `P`; a string containing a colon and
not starting with `*:` is handed to the full socket-address parser
unchanged; and `*:junk` (colon form with an unparsable port) fails in
the same way the socket-address parser would. -/
theorem parse_listen_forms :
    (∀ cs p, rustParseUInt 65535 cs = some p →
        parse_listen (String.mk ('*' :: ':' :: cs)) = some ⟨Ipv6Unspecified, p⟩) ∧
    (∀ cs p, rustParseUInt 65535 cs = some p →
        parse_listen (String.mk cs) = some ⟨Ipv6Unspecified, p⟩) ∧
    (∀ cs, ':' ∈ cs → (∀ rest, cs ≠ '*' :: ':' :: rest) →
        parse_listen (String.mk cs) = parseSockAddr cs) ∧
    (∀ cs, rustParseUInt 65535 cs = none →
        parse_listen (String.mk ('*' :: ':' :: cs)) = none ∧
        parseSockAddr ('*' :: ':' :: cs) = none) := by
  refine ⟨?_, ?_, ?_, ?_⟩
  · intro cs p h
    show parseListenCore ('*' :: ':' :: cs) = some ⟨Ipv6Unspecified, p⟩
    simp [parseListenCore, h]
  · intro cs p h
    have hne := rustParseUInt_not_star h
    have hnc := rustParseUInt_no_colon h
    show parseListenCore cs = some ⟨Ipv6Unspecified, p⟩
    rw [parseListenCore_not_star hne, if_neg hnc]
    simp [h]
  · intro cs hin hne
    show parseListenCore cs = parseSockAddr cs
    rw [parseListenCore_not_star hne, if_pos hin]
  · intro cs h
    have hsplit : splitOnChar ':' ('*' :: ':' :: cs) = ['*'] :: splitOnChar ':' cs := by
      simp [splitOnChar]
    have h4 : parseIpv4 ['*'] = none := by decide
    have hv6 : parseSockV6 ('*' :: ':' :: cs) = none := rfl
    have hv4 : parseSockV4 ('*' :: ':' :: cs) = none := by
      unfold parseSockV4
      rw [hsplit]
      rcases splitOnChar ':' cs with _ | ⟨g, gs⟩
      · rfl
      · rcases gs with _ | ⟨g2, gs2⟩
        · simp [h4]
        · rfl
    constructor
    · show parseListenCore ('*' :: ':' :: cs) = none
      simp [parseListenCore, h]
    · simp [parseSockAddr, hv4, hv6]

/-- Witness for `parse_listen_forms`: `*:3210`, bare `3210`, a full
socket address, and an unparsable `*:-form`. -/
theorem parse_listen_forms_witness :
    parse_listen (String.mk ('*' :: ':' :: "3210".data)) = some ⟨Ipv6Unspecified, 3210⟩ ∧
    parse_listen (String.mk "3210".data) = some ⟨Ipv6Unspecified, 3210⟩ ∧
    parse_listen (String.mk "1.2.3.4:80".data) = parseSockAddr "1.2.3.4:80".data ∧
    parse_listen (String.mk ('*' :: ':' :: "zz".data)) = none :=
  ⟨parse_listen_forms.1 "3210".data 3210 (by decide),
   parse_listen_forms.2.1 "3210".data 3210 (by decide),
   parse_listen_forms.2.2.1 "1.2.3.4:80".data (by decide)
     (by intro rest hr; simp [List.cons.injEq] at hr),
   (parse_listen_forms.2.2.2 "zz".data (by decide)).1⟩

/-! ## C9 and C7: `parse_ip_netmask` and setup fatality -/

theorem stringData_mk (cs : List Char) : (String.mk cs).data = cs := rfl

theorem splitAtFirst_not_mem {sep : Char} :
    ∀ cs : List Char, sep ∉ cs → splitAtFirst sep cs = (cs, none) := by
  intro cs
  induction cs with
  | nil => intro _; rfl
  | cons c cs ih =>
    intro h
    have hc : ¬(c = sep) := by rintro rfl; exact h (List.mem_cons_self _ _)
    have h' : sep ∉ cs := fun m => h (List.mem_cons_of_mem _ m)
    simp [splitAtFirst, hc, ih h']

theorem splitAtFirst_append {sep : Char} (post : List Char) :
    ∀ pre : List Char, sep ∉ pre →
      splitAtFirst sep (pre ++ sep :: post) = (pre, some post) := by
  intro pre
  induction pre with
  | nil => intro _; simp [splitAtFirst]
  | cons c cs ih =>
    intro h
    have hc : ¬(c = sep) := by rintro rfl; exact h (List.mem_cons_self _ _)
    have h' : sep ∉ cs := fun m => h (List.mem_cons_of_mem _ m)
    simp [splitAtFirst, hc, ih h']

theorem maskShl {L : Nat} (h1 : 1 ≤ L) (h2 : L ≤ 32) :
    ((2 ^ 32 - 1) <<< (32 - L)) % 2 ^ 32 = 2 ^ 32 - 2 ^ (32 - L) := by
  have hk : 32 - L ≤ 31 := by omega
  have hpow : (2 : Nat) ^ (32 - L) ≤ 2 ^ 31 := Nat.pow_le_pow_right (by norm_num) hk
  have h2a : (1 : Nat) ≤ 2 ^ (32 - L) := Nat.one_le_pow _ _ (by norm_num)
  have hlt : (2 : Nat) ^ (32 - L) < 2 ^ 32 := lt_of_le_of_lt hpow (by norm_num)
  rw [Nat.shiftLeft_eq]
  have hid : (2 ^ 32 - 1) * 2 ^ (32 - L)
      = (2 ^ 32 - 2 ^ (32 - L)) + (2 ^ (32 - L) - 1) * 2 ^ 32 := by
    zify [h2a, hlt.le, show (1 : Nat) ≤ 2 ^ 32 by norm_num]
    ring
  rw [hid, Nat.add_mul_mod_self_right, Nat.mod_eq_of_lt (by omega)]

theorem mask_bits {L : Nat} (h1 : 1 ≤ L) (h2 : L ≤ 32) :
    ∀ i, i < 32 → Nat.testBit (2 ^ 32 - 2 ^ (32 - L)) (31 - i) = decide (i < L) := by
  interval_cases L <;> decide

/-- C9: `parse_ip_netmask` on a valid IPv4 address with an explicit
prefix length between 1 and 32 returns `Ok` with a netmask of exactly
`prefix_len` leading one bits; with no `/` the prefix defaults to 24;
with prefix length exactly 0 it panics (`checked_shl(32)` is `None`
and gets unwrapped) instead of returning an error. -/
theorem parse_ip_netmask_total_except_zero :
    (∀ ipCs ip lenCs L, '/' ∉ ipCs → parseIpv4 ipCs = some ip →
        rustParseUInt 255 lenCs = some L → 1 ≤ L → L ≤ 32 →
        parse_ip_netmask (String.mk (ipCs ++ '/' :: lenCs))
            = .ok ip (ipv4FromU32 (2 ^ 32 - 2 ^ (32 - L))) ∧
        (∀ i, i < 32 →
            Nat.testBit (2 ^ 32 - 2 ^ (32 - L)) (31 - i) = decide (i < L))) ∧
    (∀ ipCs ip, '/' ∉ ipCs → parseIpv4 ipCs = some ip →
        parse_ip_netmask (String.mk ipCs) = .ok ip (.v4 255 255 255 0)) ∧
    (∀ ipCs ip lenCs, '/' ∉ ipCs → parseIpv4 ipCs = some ip →
        rustParseUInt 255 lenCs = some 0 →
        parse_ip_netmask (String.mk (ipCs ++ '/' :: lenCs)) = .panicked) := by
  refine ⟨?_, ?_, ?_⟩
  · intro ipCs ip lenCs L hsl hip hlen h1 h32
    have hsplit := splitAtFirst_append lenCs ipCs hsl
    constructor
    · simp only [parse_ip_netmask, stringData_mk, hsplit, ipNetmaskFromParts, hlen]
      rw [if_neg (show ¬32 < L by omega)]
      simp only [hip, checkedShlU32]
      rw [if_neg (show ¬32 ≤ 32 - L by omega), maskShl h1 h32]
    · exact mask_bits h1 h32
  · intro ipCs ip hsl hip
    have hsplit := splitAtFirst_not_mem ipCs hsl
    have h24 : rustParseUInt 255 "24".data = some 24 := by decide
    simp only [parse_ip_netmask, stringData_mk, hsplit, ipNetmaskFromParts, h24]
    rw [if_neg (show ¬(32 : Nat) < 24 by norm_num)]
    simp only [hip]
    rw [show checkedShlU32 (2 ^ 32 - 1) (32 - 24) = some 4294967040 from by decide]
    rfl
  · intro ipCs ip lenCs hsl hip hlen
    have hsplit := splitAtFirst_append lenCs ipCs hsl
    simp only [parse_ip_netmask, stringData_mk, hsplit, ipNetmaskFromParts, hlen]
    rw [if_neg (show ¬(32 : Nat) < 0 by norm_num)]
    simp only [hip]
    rfl

/-- Witness for `parse_ip_netmask_total_except_zero`: `10.0.0.1/16`,
`10.0.0.1` (default 24) and the panicking `10.0.0.1/0`. -/
theorem parse_ip_netmask_total_except_zero_witness :
    parse_ip_netmask (String.mk ("10.0.0.1".data ++ '/' :: "16".data))
        = .ok (.v4 10 0 0 1) (ipv4FromU32 (2 ^ 32 - 2 ^ (32 - 16))) ∧
    Nat.testBit (2 ^ 32 - 2 ^ (32 - 16)) (31 - 15) = decide (15 < 16) ∧
    parse_ip_netmask (String.mk "10.0.0.1".data) = .ok (.v4 10 0 0 1) (.v4 255 255 255 0) ∧
    parse_ip_netmask (String.mk ("10.0.0.1".data ++ '/' :: "0".data)) = .panicked :=
  ⟨(parse_ip_netmask_total_except_zero.1 "10.0.0.1".data (.v4 10 0 0 1) "16".data 16
      (by decide) (by decide) (by decide) (by norm_num) (by norm_num)).1,
   (parse_ip_netmask_total_except_zero.1 "10.0.0.1".data (.v4 10 0 0 1) "16".data 16
      (by decide) (by decide) (by decide) (by norm_num) (by norm_num)).2 15 (by norm_num),
   parse_ip_netmask_total_except_zero.2.1 "10.0.0.1".data (.v4 10 0 0 1)
      (by decide) (by decide),
   parse_ip_netmask_total_except_zero.2.2 "10.0.0.1".data (.v4 10 0 0 1) "0".data
      (by decide) (by decide) (by decide)⟩

/-- C7: an invalid `ip` value is setup-fatal and never silently
ignored: an unparsable prefix length, a prefix length above 32, and an
invalid IPv4 address part (with or without an explicit prefix) each
make `parse_ip_netmask` return an `Err` with its one-line message, and
`setup_device` turns that `Err` into process exit. -/
theorem invalid_ip_is_setup_fatal :
    (∀ ipCs lenCs, '/' ∉ ipCs → rustParseUInt 255 lenCs = none →
        parse_ip_netmask (String.mk (ipCs ++ '/' :: lenCs))
            = .err ("Invalid prefix length: " ++ String.mk lenCs) ∧
        setup_device_ip (some (String.mk (ipCs ++ '/' :: lenCs))) = .fatal) ∧
    (∀ ipCs lenCs L, '/' ∉ ipCs → rustParseUInt 255 lenCs = some L → 32 < L →
        parse_ip_netmask (String.mk (ipCs ++ '/' :: lenCs))
            = .err ("Invalid prefix length: " ++ Nat.repr L) ∧
        setup_device_ip (some (String.mk (ipCs ++ '/' :: lenCs))) = .fatal) ∧
    (∀ ipCs lenCs L, '/' ∉ ipCs → rustParseUInt 255 lenCs = some L → L ≤ 32 →
        parseIpv4 ipCs = none →
        parse_ip_netmask (String.mk (ipCs ++ '/' :: lenCs))
            = .err ("Invalid ip address: " ++ String.mk ipCs) ∧
        setup_device_ip (some (String.mk (ipCs ++ '/' :: lenCs))) = .fatal) ∧
    (∀ ipCs, '/' ∉ ipCs → parseIpv4 ipCs = none →
        parse_ip_netmask (String.mk ipCs)
            = .err ("Invalid ip address: " ++ String.mk ipCs) ∧
        setup_device_ip (some (String.mk ipCs)) = .fatal) := by
  refine ⟨?_, ?_, ?_, ?_⟩
  · intro ipCs lenCs hsl hlen
    have hsplit := splitAtFirst_append lenCs ipCs hsl
    have hp : parse_ip_netmask (String.mk (ipCs ++ '/' :: lenCs))
        = .err ("Invalid prefix length: " ++ String.mk lenCs) := by
      simp only [parse_ip_netmask, stringData_mk, hsplit, ipNetmaskFromParts, hlen]
    exact ⟨hp, by simp [setup_device_ip, hp]⟩
  · intro ipCs lenCs L hsl hlen hL
    have hsplit := splitAtFirst_append lenCs ipCs hsl
    have hp : parse_ip_netmask (String.mk (ipCs ++ '/' :: lenCs))
        = .err ("Invalid prefix length: " ++ Nat.repr L) := by
      simp only [parse_ip_netmask, stringData_mk, hsplit, ipNetmaskFromParts, hlen]
      rw [if_pos hL]
    exact ⟨hp, by simp [setup_device_ip, hp]⟩
  · intro ipCs lenCs L hsl hlen hL hip
    have hsplit := splitAtFirst_append lenCs ipCs hsl
    have hp : parse_ip_netmask (String.mk (ipCs ++ '/' :: lenCs))
        = .err ("Invalid ip address: " ++ String.mk ipCs) := by
      simp only [parse_ip_netmask, stringData_mk, hsplit, ipNetmaskFromParts, hlen]
      rw [if_neg (show ¬32 < L by omega)]
      simp only [hip]
    exact ⟨hp, by simp [setup_device_ip, hp]⟩
  · intro ipCs hsl hip
    have hsplit := splitAtFirst_not_mem ipCs hsl
    have h24 : rustParseUInt 255 "24".data = some 24 := by decide
    have hp : parse_ip_netmask (String.mk ipCs)
        = .err ("Invalid ip address: " ++ String.mk ipCs) := by
      simp only [parse_ip_netmask, stringData_mk, hsplit, ipNetmaskFromParts, h24]
      rw [if_neg (show ¬(32 : Nat) < 24 by norm_num)]
      simp only [hip]
    exact ⟨hp, by simp [setup_device_ip, hp]⟩

/-- Witness for `invalid_ip_is_setup_fatal`: a non-numeric prefix, a
prefix of 33, and two invalid addresses. -/
theorem invalid_ip_is_setup_fatal_witness :
    setup_device_ip (some (String.mk ("10.0.0.1".data ++ '/' :: "ab".data))) = .fatal ∧
    setup_device_ip (some (String.mk ("10.0.0.1".data ++ '/' :: "33".data))) = .fatal ∧
    setup_device_ip (some (String.mk ("10.0.0".data ++ '/' :: "8".data))) = .fatal ∧
    setup_device_ip (some (String.mk "banana".data)) = .fatal :=
  ⟨(invalid_ip_is_setup_fatal.1 "10.0.0.1".data "ab".data (by decide) (by decide)).2,
   (invalid_ip_is_setup_fatal.2.1 "10.0.0.1".data "33".data 33
      (by decide) (by decide) (by norm_num)).2,
   (invalid_ip_is_setup_fatal.2.2.1 "10.0.0".data "8".data 8
      (by decide) (by decide) (by norm_num) (by decide)).2,
   (invalid_ip_is_setup_fatal.2.2.2 "banana".data (by decide) (by decide)).2⟩

/-! ## C3: unspecified options leave prior values intact -/

/-- C3: every field for which the config file (resp. the flags)
specifies no value — `None`, an empty list, or an unset boolean flag —
is unchanged by `merge_file` (resp. `merge_args`). -/
theorem merge_frame :
    (∀ (c : Config) (f : ConfigFile) (c' : Config), Config.merge_file c f = some c' →
      (f.device.bind ConfigFileDevice.type_ = none → c'.device_type = c.device_type) ∧
      (f.device.bind ConfigFileDevice.name = none → c'.device_name = c.device_name) ∧
      (f.device.bind ConfigFileDevice.path = none → c'.device_path = c.device_path) ∧
      (f.device.bind ConfigFileDevice.fix_rp_filter = none →
          c'.fix_rp_filter = c.fix_rp_filter) ∧
      (f.ip = none → c'.ip = c.ip) ∧
      (f.ifup = none → c'.ifup = c.ifup) ∧
      (f.ifdown = none → c'.ifdown = c.ifdown) ∧
      (f.listen = none → c'.listen = c.listen) ∧
      (f.peers.getD [] = [] → c'.peers = c.peers) ∧
      (f.peer_timeout = none → c'.peer_timeout = c.peer_timeout) ∧
      (f.keepalive = none → c'.keepalive = c.keepalive) ∧
      (f.beacon.bind ConfigFileBeacon.store = none → c'.beacon_store = c.beacon_store) ∧
      (f.beacon.bind ConfigFileBeacon.load = none → c'.beacon_load = c.beacon_load) ∧
      (f.beacon.bind ConfigFileBeacon.interval = none →
          c'.beacon_interval = c.beacon_interval) ∧
      (f.beacon.bind ConfigFileBeacon.password = none →
          c'.beacon_password = c.beacon_password) ∧
      (f.mode = none → c'.mode = c.mode) ∧
      (f.switch_timeout = none → c'.switch_timeout = c.switch_timeout) ∧
      (f.claims.getD [] = [] → c'.claims = c.claims) ∧
      (f.auto_claim = none → c'.auto_claim = c.auto_claim) ∧
      (f.port_forwarding = none → c'.port_forwarding = c.port_forwarding) ∧
      (c'.daemonize = c.daemonize) ∧
      (f.pid_file = none → c'.pid_file = c.pid_file) ∧
      (f.stats_file = none → c'.stats_file = c.stats_file) ∧
      (f.statsd.bind ConfigFileStatsd.server = none → c'.statsd_server = c.statsd_server) ∧
      (f.statsd.bind ConfigFileStatsd.pfx = none → c'.statsd_pfx = c.statsd_pfx) ∧
      (f.user = none → c'.user = c.user) ∧
      (f.group = none → c'.group = c.group) ∧
      (f.crypto.password = none → c'.crypto.password = c.crypto.password) ∧
      (f.crypto.public_key = none → c'.crypto.public_key = c.crypto.public_key) ∧
      (f.crypto.private_key = none → c'.crypto.private_key = c.crypto.private_key) ∧
      (f.crypto.trusted_keys = [] → c'.crypto.trusted_keys = c.crypto.trusted_keys) ∧
      (f.crypto.algorithms = [] → c'.crypto.algorithms = c.crypto.algorithms)) ∧
    (∀ (c : Config) (a : Args) (c' : Config), Config.merge_args c a = some c' →
      (a.type_ = none → c'.device_type = c.device_type) ∧
      (a.device = none → c'.device_name = c.device_name) ∧
      (a.device_path = none → c'.device_path = c.device_path) ∧
      (a.fix_rp_filter = false → c'.fix_rp_filter = c.fix_rp_filter) ∧
      (a.ip = none → c'.ip = c.ip) ∧
      (a.ifup = none → c'.ifup = c.ifup) ∧
      (a.ifdown = none → c'.ifdown = c.ifdown) ∧
      (a.listen = none → c'.listen = c.listen) ∧
      (a.peers = [] → c'.peers = c.peers) ∧
      (a.peer_timeout = none → c'.peer_timeout = c.peer_timeout) ∧
      (a.keepalive = none → c'.keepalive = c.keepalive) ∧
      (a.beacon_store = none → c'.beacon_store = c.beacon_store) ∧
      (a.beacon_load = none → c'.beacon_load = c.beacon_load) ∧
      (a.beacon_interval = none → c'.beacon_interval = c.beacon_interval) ∧
      (a.beacon_password = none → c'.beacon_password = c.beacon_password) ∧
      (a.mode = none → c'.mode = c.mode) ∧
      (a.switch_timeout = none → c'.switch_timeout = c.switch_timeout) ∧
      (a.claims = [] → c'.claims = c.claims) ∧
      (a.no_auto_claim = false → c'.auto_claim = c.auto_claim) ∧
      (a.no_port_forwarding = false → c'.port_forwarding = c.port_forwarding) ∧
      (a.daemon = false → c'.daemonize = c.daemonize) ∧
      (a.pid_file = none → c'.pid_file = c.pid_file) ∧
      (a.stats_file = none → c'.stats_file = c.stats_file) ∧
      (a.statsd_server = none → c'.statsd_server = c.statsd_server) ∧
      (a.statsd_pfx = none → c'.statsd_pfx = c.statsd_pfx) ∧
      (a.user = none → c'.user = c.user) ∧
      (a.group = none → c'.group = c.group) ∧
      (a.password = none → c'.crypto.password = c.crypto.password) ∧
      (a.public_key = none → c'.crypto.public_key = c.crypto.public_key) ∧
      (a.private_key = none → c'.crypto.private_key = c.crypto.private_key) ∧
      (a.trusted_keys = [] → c'.crypto.trusted_keys = c.crypto.trusted_keys) ∧
      (a.algorithms = [] → c'.crypto.algorithms = c.crypto.algorithms)) := by
  constructor
  · intro c f c' h
    simp only [Config.merge_file, Option.map_eq_some'] at h
    obtain ⟨l, hl, rfl⟩ := h
    repeat' apply And.intro
    all_goals intros
    all_goals try (rename_i hx; rw [hx])
    all_goals simp_all [newListen]
  · intro c a c' h
    simp only [Config.merge_args, Option.map_eq_some'] at h
    obtain ⟨l, hl, rfl⟩ := h
    repeat' apply And.intro
    all_goals intros
    all_goals try (rename_i hx; rw [hx])
    all_goals simp_all [newListen]

/-- Witness for `merge_frame`: a file that only sets the mode leaves
`ip` and `peers` untouched. -/
theorem merge_frame_witness :
    frameMerged.ip = frameCfg.ip ∧ frameMerged.peers = frameCfg.peers :=
  ⟨(merge_frame.1 frameCfg frameFile frameMerged (by decide)).2.2.2.2.1 rfl,
   (merge_frame.1 frameCfg frameFile frameMerged (by decide)).2.2.2.2.2.2.2.2.1 rfl⟩

/-! ## C2: flags override the file -/

/-- C2 counterexample: `peers` is specified both in the config file and
in the flags, yet after defaults ← file ← flags the merged config's
`peers` is the concatenation of both lists, not the flags' value. -/
theorem flags_override_counterexample :
    ((Config.merge_file Config.default fileWithPeer).bind
        fun c => Config.merge_args c argsWithPeer).map Config.peers
      ≠ some argsWithPeer.peers := by decide

/-- C2 (amended): merging defaults ← file ← flags gives every *scalar*
option specified in the flags the flags' value (and a non-empty flags
`algorithms` list replaces the file's), but the list-valued options
`peers`, `claims` and `trusted_keys` are appended — defaults, then
file, then flags — not overridden. -/
theorem flags_override_file :
    ∀ (f : ConfigFile) (a : Args) (cf cfa : Config),
      Config.merge_file Config.default f = some cf →
      Config.merge_args cf a = some cfa →
      (∀ v, a.type_ = some v → cfa.device_type = v) ∧
      (∀ v, a.device = some v → cfa.device_name = v) ∧
      (∀ v, a.device_path = some v → cfa.device_path = some v) ∧
      (a.fix_rp_filter = true → cfa.fix_rp_filter = true) ∧
      (∀ v, a.ip = some v → cfa.ip = some v) ∧
      (∀ v, a.ifup = some v → cfa.ifup = some v) ∧
      (∀ v, a.ifdown = some v → cfa.ifdown = some v) ∧
      (∀ s addr, a.listen = some s → parse_listen s = some addr → cfa.listen = addr) ∧
      (cfa.peers = f.peers.getD [] ++ a.peers) ∧
      (∀ v, a.peer_timeout = some v → cfa.peer_timeout = v) ∧
      (∀ v, a.keepalive = some v → cfa.keepalive = some v) ∧
      (∀ v, a.beacon_store = some v → cfa.beacon_store = some v) ∧
      (∀ v, a.beacon_load = some v → cfa.beacon_load = some v) ∧
      (∀ v, a.beacon_interval = some v → cfa.beacon_interval = v) ∧
      (∀ v, a.beacon_password = some v → cfa.beacon_password = some v) ∧
      (∀ v, a.mode = some v → cfa.mode = v) ∧
      (∀ v, a.switch_timeout = some v → cfa.switch_timeout = v) ∧
      (cfa.claims = f.claims.getD [] ++ a.claims) ∧
      (a.no_auto_claim = true → cfa.auto_claim = false) ∧
      (a.no_port_forwarding = true → cfa.port_forwarding = false) ∧
      (a.daemon = true → cfa.daemonize = true) ∧
      (∀ v, a.pid_file = some v → cfa.pid_file = some v) ∧
      (∀ v, a.stats_file = some v → cfa.stats_file = some v) ∧
      (∀ v, a.statsd_server = some v → cfa.statsd_server = some v) ∧
      (∀ v, a.statsd_pfx = some v → cfa.statsd_pfx = some v) ∧
      (∀ v, a.user = some v → cfa.user = some v) ∧
      (∀ v, a.group = some v → cfa.group = some v) ∧
      (∀ v, a.password = some v → cfa.crypto.password = some v) ∧
      (∀ v, a.public_key = some v → cfa.crypto.public_key = some v) ∧
      (∀ v, a.private_key = some v → cfa.crypto.private_key = some v) ∧
      (cfa.crypto.trusted_keys = f.crypto.trusted_keys ++ a.trusted_keys) ∧
      (a.algorithms ≠ [] → cfa.crypto.algorithms = a.algorithms) := by
  intro f a cf cfa hf ha
  simp only [Config.merge_file, Option.map_eq_some'] at hf
  obtain ⟨lf, hlf, rfl⟩ := hf
  simp only [Config.merge_args, Option.map_eq_some'] at ha
  obtain ⟨la, hla, rfl⟩ := ha
  repeat' apply And.intro
  all_goals intros
  all_goals try (rename_i hx; rw [hx])
  all_goals simp_all [newListen, Config.default, CryptoConfig.default]

/-- Witness for `flags_override_file`: concrete file and flags that
both specify a device type and peers. -/
theorem flags_override_file_witness :
    cfgAfterArgs.device_type = DeviceType.Tap ∧
    cfgAfterArgs.peers = fileWithPeer.peers.getD [] ++ argsWithPeer.peers :=
  ⟨(flags_override_file fileWithPeer argsWithPeer cfgAfterFile cfgAfterArgs
      (by decide) (by decide)).1 .Tap rfl,
   (flags_override_file fileWithPeer argsWithPeer cfgAfterFile cfgAfterArgs
      (by decide) (by decide)).2.2.2.2.2.2.2.2.1⟩

/-! ## C4: idempotence of merging -/

/-- C4 counterexample: merging the same config file twice is not the
same as merging it once — the file's `peers` list is appended again. -/
theorem merge_file_not_idempotent :
    ((Config.merge_file Config.default fileWithPeer).bind
        fun c => Config.merge_file c fileWithPeer)
      ≠ Config.merge_file Config.default fileWithPeer := by decide

/-- C4 (amended): merging the same `ConfigFile` (resp. `Args`) a second
time onto an already-merged config changes nothing, provided its
list-valued options — `peers`, `claims`, `crypto.trusted_keys` — are
empty (those are appended on every merge); all other options, the
`algorithms` list included, are idempotent. -/
theorem merge_idempotent_no_lists :
    (∀ (c : Config) (f : ConfigFile) (c₁ : Config),
        f.peers.getD [] = [] → f.claims.getD [] = [] → f.crypto.trusted_keys = [] →
        Config.merge_file c f = some c₁ → Config.merge_file c₁ f = some c₁) ∧
    (∀ (c : Config) (a : Args) (c₁ : Config),
        a.peers = [] → a.claims = [] → a.trusted_keys = [] →
        Config.merge_args c a = some c₁ → Config.merge_args c₁ a = some c₁) := by
  constructor
  · intro c f c₁ hp hc ht h
    simp only [Config.merge_file, Option.map_eq_some'] at h ⊢
    obtain ⟨l, hl, rfl⟩ := h
    refine ⟨l, ?_, ?_⟩
    · cases hfl : f.listen with
      | none => simp [newListen]
      | some s => rw [hfl] at hl; simpa [newListen] using hl
    · by_cases halg : f.crypto.algorithms = [] <;>
        simp [Config.mk.injEq, CryptoConfig.mk.injEq, upd_idem, updOpt_idem,
          hp, hc, ht, halg]
  · intro c a c₁ hp hc ht h
    simp only [Config.merge_args, Option.map_eq_some'] at h ⊢
    obtain ⟨l, hl, rfl⟩ := h
    refine ⟨l, ?_, ?_⟩
    · cases hfl : a.listen with
      | none => simp [newListen]
      | some s => rw [hfl] at hl; simpa [newListen] using hl
    · by_cases halg : a.algorithms = [] <;>
      by_cases h1 : a.fix_rp_filter <;> by_cases h2 : a.no_auto_claim <;>
      by_cases h3 : a.no_port_forwarding <;> by_cases h4 : a.daemon <;>
        simp [Config.mk.injEq, CryptoConfig.mk.injEq, upd_idem, updOpt_idem,
          hp, hc, ht, halg, h1, h2, h3, h4]

/-- Witness for `merge_idempotent_no_lists`: a file setting only
scalar options is idempotent. -/
theorem merge_idempotent_no_lists_witness :
    Config.merge_file cfgScalars fileScalars = some cfgScalars :=
  merge_idempotent_no_lists.1 Config.default fileScalars cfgScalars rfl rfl rfl (by decide)

/-! ## Sanity checks against the source's own tests -/

/-- An empty config file changes nothing (mirrors the source test
`default_config_as_default`). -/
theorem merge_with_empty_file :
    Config.merge_file Config.default ConfigFile.default = some Config.default := by decide

/-- The default keepalive for the default peer timeout of 300 s. -/
theorem default_keepalive_value : Config.get_keepalive Config.default = 90 := by decide

/-- The source's `config_merge` test (`src/config.rs`, lines 627–753)
replayed on the embedding: merging the test file and then the test
flags yields exactly the two configs the test asserts. -/
theorem source_config_merge_test :
    Config.merge_file Config.default testConfigFile = some testMergedFileConfig ∧
    Config.merge_args testMergedFileConfig testArgs = some testMergedArgsConfig := by
  refine ⟨by decide, by decide⟩

/-- Spot checks of the socket-address and IPv4 parser models. -/
theorem sockaddr_parse_checks :
    parseSockAddr "1.2.3.4:80".data = some ⟨.v4 1 2 3 4, 80⟩ ∧
    parseSockAddr "[::]:3210".data = some ⟨Ipv6Unspecified, 3210⟩ ∧
    parseSockAddr "[2a01:db8::1]:9".data = some ⟨.v6 [0x2a01, 0xdb8, 0, 0, 0, 0, 0, 1], 9⟩ ∧
    parseSockAddr "*:80".data = none ∧
    parseIpv4 "10.0.01.1".data = none ∧
    rustParseUInt 65535 "3210".data = some 3210 ∧
    rustParseUInt 65535 "+99999".data = none := by
  refine ⟨by decide, by decide, by decide, by decide, by decide, by decide, by decide⟩

/-- Spot checks of `parse_ip_netmask` on concrete inputs. -/
theorem ip_netmask_checks :
    parse_ip_netmask "10.0.1.1/16" = .ok (.v4 10 0 1 1) (.v4 255 255 0 0) ∧
    parse_ip_netmask "10.0.1.1" = .ok (.v4 10 0 1 1) (.v4 255 255 255 0) ∧
    parse_ip_netmask "10.0.1.1/0" = .panicked ∧
    parse_ip_netmask "10.0.1.1/33" = .err "Invalid prefix length: 33" ∧
    parse_ip_netmask "10.0.1/24" = .err "Invalid ip address: 10.0.1" := by
  refine ⟨by decide, by decide, by decide, by decide, by decide⟩
